import Mathlib

set_option maxRecDepth 4000

/-! # Shallow embedding of shuttle_vfd.c

Each definition below mirrors one constant or function of src/shuttle_vfd.c.
Machine integers (`unsigned long`, 64-bit in the kernel ABI the driver is
built for) are modelled as `Nat` with explicit masking where the C code
masks; `unsigned char` packet bytes are `Nat` values produced by explicit
`% 256` truncation of the signed C expressions.
-/

namespace ShuttleVFD

/-! ## Constants (shuttle_vfd.c lines 54-105) -/

def SHUTTLE_VFD_WIDTH : Nat := 20

def SHUTTLE_VFD_PACKET_SIZE : Nat := 8

def SHUTTLE_VFD_DATA_SIZE : Nat := SHUTTLE_VFD_PACKET_SIZE - 1

def SHUTTLE_VFD_ICON_VOL_01 : Nat := 1 <<< 15

def SHUTTLE_VFD_BASE_MASK : Nat := 0x7FFF

def SHUTTLE_VFD_VOL_MASK : Nat := 0xF <<< 15

def SHUTTLE_VFD_ALL_ICONS : Nat := 0x7FFF ||| (12 <<< 15)

def DRIVER_ICON_CLEAR : Nat := 1 <<< 28

def DRIVER_ICON_SET : Nat := 1 <<< 29

def DRIVER_MODE_TEXT : Nat := 0

def DRIVER_MODE_CLOCK : Nat := 1

/-- All-ones value of a C `unsigned long` (64-bit); used to model `~x`
as `ULONG_MAX ^^^ x`. -/
def ULONG_MAX : Nat := 2 ^ 64 - 1

/-! ## Icon catalog (struct vfd_icons icons[], lines 123-147) -/

structure IconEntry where
  name : String
  altname : Option String
  value : Nat

def icons : List IconEntry := [
  ⟨"clk", some "clock",   1 <<< 4⟩,
  ⟨"rad", some "radio",   1 <<< 3⟩,
  ⟨"mus", some "music",   1 <<< 2⟩,
  ⟨"cd",  some "dvd",     1 <<< 1⟩,
  ⟨"tv",  some "tele",    1 <<< 0⟩,
  ⟨"cam", some "camera",  1 <<< 9⟩,
  ⟨"rew", some "rewind",  1 <<< 8⟩,
  ⟨"rec", some "record",  1 <<< 7⟩,
  ⟨"pl",  some "play",    1 <<< 6⟩,
  ⟨"pa",  some "pause",   1 <<< 5⟩,
  ⟨"st",  some "stop",    1 <<< 14⟩,
  ⟨"ff",  none,           1 <<< 13⟩,
  ⟨"rev", some "reverse", 1 <<< 12⟩,
  ⟨"rep", some "repeat",  1 <<< 11⟩,
  ⟨"mute", some "vol0",   1 <<< 10⟩,
  ⟨"all", some "world",   SHUTTLE_VFD_ALL_ICONS⟩,
  ⟨"clear", some "none",  DRIVER_ICON_CLEAR⟩,
  ⟨"=", none,             DRIVER_ICON_SET⟩]

/-! ## vfd_parse_icons (lines 270-298)

The C loop body tries, for the current catalog entry `icons[i]`, in order:
exact match on `name`, exact match on `altname`, the `vol` + digit 1-9
pattern, the `vol1` + digit 0-2 pattern; the first hit sets `*val` and
breaks.  `entryStep` is that loop body, `vfd_parse_icons` the loop plus the
final `(*val == 0) ? -1 : 0` (here: `none` instead of `-1`). -/

def entryStep (tok : List Char) (e : IconEntry) : Option Nat :=
  if tok = e.name.data then some e.value
  else if e.altname.any (fun a => tok == a.data) then some e.value
  else if tok.length = 4 ∧ tok.take 3 = String.data "vol" ∧
          0x30 < (tok.getD 3 ' ').toNat ∧ (tok.getD 3 ' ').toNat ≤ 0x39 then
    some (((tok.getD 3 ' ').toNat - 0x30) <<< 15)
  else if tok.length = 5 ∧ tok.take 4 = String.data "vol1" ∧
          0x30 ≤ (tok.getD 4 ' ').toNat ∧ (tok.getD 4 ' ').toNat ≤ 0x32 then
    some (((tok.getD 4 ' ').toNat - 0x30 + 10) <<< 15)
  else none

def vfd_parse_icons (tok : List Char) : Option Nat :=
  let val := (icons.findSome? (entryStep tok)).getD 0
  if val = 0 then none else some val

/-! ## Token scanning loop of set_vfd_icons_handler (lines 351-384)

The handler scans `buf` until `count` or a NUL byte, splitting on runs of
comma, space and newline; each non-empty token is looked up, successful
values are OR-accumulated into `mask`, failures increment the count of
unknown tokens reported by dev_err. -/

def isSep (c : Char) : Bool := c == ',' || c == ' ' || c == '\n'

def tokenizeAux : List Char → List Char → List (List Char)
  | [], acc => if acc.isEmpty then [] else [acc.reverse]
  | c :: rest, acc =>
    if c == '\x00' then (if acc.isEmpty then [] else [acc.reverse])
    else if isSep c then
      (if acc.isEmpty then tokenizeAux rest []
       else acc.reverse :: tokenizeAux rest [])
    else tokenizeAux rest (c :: acc)

def tokenize (buf : List Char) : List (List Char) := tokenizeAux buf []

/-- Accumulated `(mask, number of unknown tokens)` of the scanning loop. -/
def vfd_parse_all (buf : List Char) : Nat × Nat :=
  (tokenize buf).foldl
    (fun mu tok =>
      match vfd_parse_icons tok with
      | some v => (mu.1 ||| v, mu.2)
      | none => (mu.1, mu.2 + 1)) (0, 0)

/-! ## Merge policy of set_vfd_icons_handler (lines 386-399) -/

def applyIconsMask (cur mask : Nat) : Nat :=
  if mask &&& DRIVER_ICON_CLEAR ≠ 0 then 0
  else if mask &&& DRIVER_ICON_SET ≠ 0 then
    mask &&& (ULONG_MAX ^^^ DRIVER_ICON_SET)
  else if SHUTTLE_VFD_ICON_VOL_01 ≤ mask then
    let m2 := if cur &&& SHUTTLE_VFD_VOL_MASK = mask &&& SHUTTLE_VFD_VOL_MASK
              then mask &&& SHUTTLE_VFD_BASE_MASK else mask
    (cur &&& SHUTTLE_VFD_BASE_MASK) ^^^ m2
  else cur ^^^ mask

/-- Whole icons-write handler: parse the input, merge into the current
mask; returns the new `icons_mask` together with the unknown-token count. -/
def set_vfd_icons_handler (cur : Nat) (buf : List Char) : Nat × Nat :=
  let mu := vfd_parse_all buf
  (applyIconsMask cur mu.1, mu.2)

/-- The 4-bit volume sub-field, bits 15-18 of the icon mask. -/
def volField (m : Nat) : Nat := (m >>> 15) &&& 0xF

example : set_vfd_icons_handler 0 ("vol3,vol12".data) = (15 <<< 15, 0) := by rfl

example : set_vfd_icons_handler 0 ("foo,play".data) = (1 <<< 6, 1) := by rfl

example : volField (set_vfd_icons_handler 0 ("vol3,vol12".data)).1 = 15 := by rfl

example : set_vfd_icons_handler (5 <<< 15) ("vol5".data) = (0, 0) := by rfl

example : set_vfd_icons_handler (5 <<< 15) ("vol7".data) = (7 <<< 15, 0) := by rfl

/-! ## Text writing, set_vfd_text_handler (lines 302-336)

`memcpy(dst + pos, src, src.length)` on the fixed 20-byte screen is
modelled by `writeBytes`; `memset` is `writeBytes` of a `List.replicate`. -/

inductive TextStyle
  | left
  | right
  | center
deriving DecidableEq

def writeBytes (dst : List Nat) (pos : Nat) (src : List Nat) : List Nat :=
  dst.take pos ++ src ++ dst.drop (pos + src.length)

/-- State mutation of the text-write handler: given the current screen and
the written bytes `buf` (with `count = buf.length`), produce the new
20-byte screen.  Mirrors lines 310-328 of the C handler. -/
def set_vfd_text_handler (style : TextStyle) (screen buf : List Nat) :
    List Nat :=
  let count := buf.length
  let s0 := if count < SHUTTLE_VFD_WIDTH then List.replicate SHUTTLE_VFD_WIDTH 0
            else screen
  let l := min count SHUTTLE_VFD_WIDTH
  match style with
  | .right =>
      writeBytes (writeBytes s0 0 (List.replicate (SHUTTLE_VFD_WIDTH - l) 0x20))
        (SHUTTLE_VFD_WIDTH - l) (buf.take l)
  | .center =>
      writeBytes (writeBytes s0 0 (List.replicate SHUTTLE_VFD_WIDTH 0x20))
        ((SHUTTLE_VFD_WIDTH - l) / 2) (buf.take l)
  | .left => writeBytes s0 0 (buf.take l)

/-! ## vfd_set_text packet encoding (lines 236-255)

`len / 7` full command-0x9 packets (every byte of the 8-byte packet buffer
is written, so no memset is needed in the C loop), then, when `len % 7` is
non-zero, one zero-filled packet carrying the remaining bytes. -/

def vfd_set_text (screen : List Nat) (len : Nat) : List (List Nat) :=
  ((List.range (len / SHUTTLE_VFD_DATA_SIZE)).map
    (fun i => ((9 <<< 4) + SHUTTLE_VFD_DATA_SIZE) ::
      (screen.drop (SHUTTLE_VFD_DATA_SIZE * i)).take SHUTTLE_VFD_DATA_SIZE))
  ++ (if len % SHUTTLE_VFD_DATA_SIZE ≠ 0 then
        [((9 <<< 4) + len % SHUTTLE_VFD_DATA_SIZE) ::
          ((screen.drop (SHUTTLE_VFD_DATA_SIZE * (len / SHUTTLE_VFD_DATA_SIZE))).take
             (len % SHUTTLE_VFD_DATA_SIZE)
           ++ List.replicate (SHUTTLE_VFD_DATA_SIZE - len % SHUTTLE_VFD_DATA_SIZE) 0)]
      else [])

/-! ## vfd_reset_cursor (lines 184-195) -/

def vfd_reset_cursor (eraseall : Bool) : List Nat :=
  ((1 <<< 4) + 1) :: (if eraseall then 1 else 2) :: List.replicate 6 0

/-! ## vfd_set_clock (lines 199-233)

`struct rtc_time now` is `memset` to zero; when the RTC device cannot be
opened the zeroed struct is used unchanged (only dev_err is printed).
When a reading is obtained it is used even if `rtc_valid_tm` rejects it,
so the read result is modelled as `Option RtcTime` with `none` for the
unavailable-device case.  The C `int` fields are `Int`; `DEC_AS_HEX` uses
C truncating division/remainder and the assignment to the `unsigned char`
packet byte truncates mod 256. -/

structure RtcTime where
  tm_sec : Int
  tm_min : Int
  tm_hour : Int
  tm_wday : Int
  tm_mday : Int
  tm_mon : Int
  tm_year : Int

def DEC_AS_HEX (v : Int) : Int := v.tdiv 10 * 16 + v.tmod 10

def toByte (v : Int) : Nat := (v.emod 256).toNat

def zeroedTm : RtcTime := ⟨0, 0, 0, 0, 0, 0, 0⟩

def vfd_set_clock (rtc : Option RtcTime) : List (List Nat) :=
  let now := rtc.getD zeroedTm
  [[(0xD <<< 4) + 7,
    toByte (DEC_AS_HEX now.tm_sec),
    toByte (DEC_AS_HEX now.tm_min),
    toByte (DEC_AS_HEX now.tm_hour),
    toByte now.tm_wday,
    toByte (DEC_AS_HEX now.tm_mday),
    toByte (DEC_AS_HEX (now.tm_mon + 1)),
    toByte (DEC_AS_HEX (now.tm_year - 100))],
   [(3 <<< 4) + 1, 3, 0, 0, 0, 0, 0, 0]]

/-! ## Device state and set_vfd_mode_handler (lines 151-158, 408-439)

The handler first extracts the first whitespace-delimited word of the
written buffer with sscanf("%5s"); the model takes that word (`cmd`)
directly.  `none` models the -EINVAL return. -/

structure VfdState where
  icons_mask : Nat
  mode : Nat
  text_style : TextStyle
  screen : List Nat

def set_vfd_mode_handler (st : VfdState) (cmd : String) (rtc : Option RtcTime) :
    Option (VfdState × List (List Nat)) :=
  if cmd = "clock" ∨ cmd = "clk" then
    some ({ st with mode := DRIVER_MODE_CLOCK },
          vfd_reset_cursor true :: vfd_set_clock rtc)
  else if cmd = "text" ∨ cmd = "txt" then
    some ({ st with mode := DRIVER_MODE_TEXT },
          vfd_reset_cursor true :: vfd_set_text st.screen SHUTTLE_VFD_WIDTH)
  else none

/-! ## get_vfd_icons_handler (lines 490-513)

Walks all catalog entries except the last three (`all`, `clear`, `=`),
printing altname-or-name of every entry whose value intersects the mask,
then `volN` when the mask reaches the volume field, `none` when nothing
was printed, and a final newline. -/

def get_vfd_icons_handler (mask : Nat) : String :=
  let base := (icons.take (icons.length - 3)).foldl
    (fun acc e =>
      if e.value &&& mask ≠ 0 then acc ++ (e.altname.getD e.name) ++ " "
      else acc) ""
  let s := if SHUTTLE_VFD_ICON_VOL_01 ≤ mask then
             base ++ "vol" ++ toString ((mask >>> 15) &&& 0xF)
           else base
  (if s.length = 0 then "none" else s) ++ "\n"

/-! ## Trailing-trim loop of get_vfd_text_handler (lines 471-486)

After `memcpy(buf, screen, 20)` the handler runs
`while (buf[sz-1] == '\0' || buf[sz-1] == '\n') sz--;` starting from
`sz = 20`.  `trimLoop screen sz` models the loop about to test index
`sz - 1`: result `some sz` is normal exit at that size, while `none`
means the loop reached `sz = 0`, where the C code reads `buf[-1]`,
one byte before the start of the output buffer. -/

def isTrimByte (b : Nat) : Bool := b == 0 || b == 10

def trimLoop (screen : List Nat) : Nat → Option Nat
  | 0 => none
  | n + 1 =>
      if isTrimByte (screen.getD n 0) then trimLoop screen n else some (n + 1)

example : set_vfd_text_handler TextStyle.left (List.replicate 20 0x58) [0x41] =
    0x41 :: List.replicate 19 0 := by rfl

example : set_vfd_text_handler TextStyle.center (List.replicate 20 0x58) [0x41] =
    List.replicate 9 0x20 ++ [0x41] ++ List.replicate 10 0x20 := by rfl

example : vfd_set_clock none =
    [[0xD7, 0, 0, 0, 0, 0, 1, 0x60], [0x31, 3, 0, 0, 0, 0, 0, 0]] := by rfl

example : trimLoop (set_vfd_text_handler TextStyle.left (List.replicate 20 0x58) [10]) 20 =
    none := by rfl

example : (vfd_set_text (List.replicate 20 0x41) 20).length = 3 := by rfl

example : (vfd_set_text (List.replicate 20 0x41) 20).map (fun p => p.headD 0) =
    [0x97, 0x97, 0x96] := by rfl

/-! ## Volume sub-field toolkit -/

theorem testBit_high_of_lt {m k : Nat} (h : m < 2 ^ 15) (hk : 15 ≤ k) :
    m.testBit k = false :=
  Nat.testBit_lt_two_pow
    (lt_of_lt_of_le h (Nat.pow_le_pow_right (by norm_num) hk))

theorem volField_eq_of_testBit {a b : Nat}
    (h : ∀ i, i < 4 → a.testBit (15 + i) = b.testBit (15 + i)) :
    volField a = volField b := by
  unfold volField
  apply Nat.eq_of_testBit_eq
  intro i
  rw [Nat.testBit_and, Nat.testBit_and, Nat.testBit_shiftRight,
      Nat.testBit_shiftRight]
  by_cases hi : i < 4
  · rw [h i hi]
  · have hf : (0xF : Nat).testBit i = false :=
      Nat.testBit_lt_two_pow
        (lt_of_lt_of_le (show (0xF : Nat) < 2 ^ 4 by norm_num)
          (Nat.pow_le_pow_right (by norm_num) (by omega)))
    simp [hf]

theorem volField_of_lt {m : Nat} (h : m < 2 ^ 15) : volField m = 0 := by
  have h0 : volField m = volField 0 :=
    volField_eq_of_testBit (fun i _ => by
      rw [testBit_high_of_lt h (by omega), Nat.zero_testBit])
  exact h0.trans rfl

theorem volField_xor_of_lt {a b : Nat} (h : b < 2 ^ 15) :
    volField (a ^^^ b) = volField a :=
  volField_eq_of_testBit (fun i _ => by
    rw [Nat.testBit_xor, testBit_high_of_lt h (by omega), Bool.xor_false])

theorem and_base_lt (m : Nat) : m &&& SHUTTLE_VFD_BASE_MASK < 2 ^ 15 :=
  lt_of_le_of_lt Nat.and_le_right (by norm_num [SHUTTLE_VFD_BASE_MASK])

theorem and_base_idem (m : Nat) :
    (m &&& SHUTTLE_VFD_BASE_MASK) &&& SHUTTLE_VFD_BASE_MASK =
      m &&& SHUTTLE_VFD_BASE_MASK := by
  rw [Nat.and_assoc, Nat.and_self]

theorem volField_and_notset (m : Nat) :
    volField (m &&& (ULONG_MAX ^^^ DRIVER_ICON_SET)) = volField m :=
  volField_eq_of_testBit (fun i hi => by
    rw [Nat.testBit_and]
    have ht : (ULONG_MAX ^^^ DRIVER_ICON_SET).testBit (15 + i) = true := by
      interval_cases i <;> decide
    rw [ht, Bool.and_true])

theorem vol01_le_of_volField_ne {m : Nat} (h : volField m ≠ 0) :
    SHUTTLE_VFD_ICON_VOL_01 ≤ m := by
  by_contra hlt
  push_neg at hlt
  refine h (volField_of_lt ?_)
  calc m < SHUTTLE_VFD_ICON_VOL_01 := hlt
    _ ≤ 2 ^ 15 := by decide

theorem and_volMask (m : Nat) :
    m &&& SHUTTLE_VFD_VOL_MASK = volField m <<< 15 := by
  unfold SHUTTLE_VFD_VOL_MASK volField
  apply Nat.eq_of_testBit_eq
  intro i
  simp only [Nat.testBit_and, Nat.testBit_shiftLeft, Nat.testBit_shiftRight]
  by_cases h15 : 15 ≤ i
  · have hi : 15 + (i - 15) = i := by omega
    rw [hi]
    cases hm : m.testBit i <;> cases hf : (0xF : Nat).testBit (i - 15) <;>
      simp [h15]
  · simp [h15]

theorem volMask_eq_iff {a b : Nat} :
    a &&& SHUTTLE_VFD_VOL_MASK = b &&& SHUTTLE_VFD_VOL_MASK ↔
      volField a = volField b := by
  rw [and_volMask, and_volMask, Nat.shiftLeft_eq, Nat.shiftLeft_eq]
  constructor
  · intro h
    exact Nat.eq_of_mul_eq_mul_right (by norm_num) h
  · intro h
    rw [h]

/-! ## Claims about set_vfd_icons_handler -/

theorem handler_fst (cur : Nat) (buf : List Char) :
    (set_vfd_icons_handler cur buf).1 =
      applyIconsMask cur (vfd_parse_all buf).1 := rfl

theorem handler_snd (cur : Nat) (buf : List Char) :
    (set_vfd_icons_handler cur buf).2 = (vfd_parse_all buf).2 := rfl

/-- C2 (amended): starting from a state whose volume sub-field is in
[0,12], and for any icon input whose OR-accumulated resolved value itself
has volume sub-field in [0,12] (e.g. any input with at most one volume
token), the icons-write handler leaves the volume sub-field in [0,12]. -/
theorem icons_volume_invariant (cur : Nat) (buf : List Char)
    (hcur : volField cur ≤ 12)
    (hmask : volField (vfd_parse_all buf).1 ≤ 12) :
    volField (set_vfd_icons_handler cur buf).1 ≤ 12 := by
  rw [handler_fst]
  simp only [applyIconsMask]
  split_ifs with h1 h2 h3 h4
  · simp [volField_of_lt]
  · rw [volField_and_notset]
    exact hmask
  · rw [volField_of_lt
      (Nat.xor_lt_two_pow (and_base_lt cur) (and_base_lt (vfd_parse_all buf).1))]
    omega
  · rw [Nat.xor_comm, volField_xor_of_lt (and_base_lt cur)]
    exact hmask
  · rw [volField_xor_of_lt]
    · exact hcur
    · push_neg at h3
      calc (vfd_parse_all buf).1 < SHUTTLE_VFD_ICON_VOL_01 := h3
        _ ≤ 2 ^ 15 := by decide

/-- C2 counterexample: from mask 0 (volume sub-field 0, in range), the
input "vol3,vol12" ORs two volume tokens together and drives the volume
sub-field to 15, outside [0,12]. -/
theorem icons_volume_invariant_cex :
    volField 0 ≤ 12 ∧
    ¬ volField (set_vfd_icons_handler 0 ("vol3,vol12".data)).1 ≤ 12 := by
  constructor
  · decide
  · have h : volField (set_vfd_icons_handler 0 ("vol3,vol12".data)).1 = 15 := by
      rfl
    omega

theorem icons_volume_invariant_witness :
    volField (set_vfd_icons_handler 0 ("vol5".data)).1 ≤ 12 :=
  icons_volume_invariant 0 ("vol5".data) (by decide) (by decide)

/-- C4: with no sentinel among the resolved tokens and a non-zero
accumulated volume sub-field, the handler toggles the volume off when the
new level equals the current one, replaces it otherwise, and XORs the base
bits either way; in particular (from mask 0) "vol5" twice clears the
volume field and "vol5" then "vol7" leaves exactly the vol7 level. -/
theorem icons_volume_merge (cur : Nat) (buf : List Char)
    (hclear : (vfd_parse_all buf).1 &&& DRIVER_ICON_CLEAR = 0)
    (hset : (vfd_parse_all buf).1 &&& DRIVER_ICON_SET = 0)
    (hvol : volField (vfd_parse_all buf).1 ≠ 0) :
    ((volField cur = volField (vfd_parse_all buf).1 →
        volField (set_vfd_icons_handler cur buf).1 = 0) ∧
     (volField cur ≠ volField (vfd_parse_all buf).1 →
        volField (set_vfd_icons_handler cur buf).1 =
          volField (vfd_parse_all buf).1) ∧
     (set_vfd_icons_handler cur buf).1 &&& SHUTTLE_VFD_BASE_MASK =
       (cur &&& SHUTTLE_VFD_BASE_MASK) ^^^
         ((vfd_parse_all buf).1 &&& SHUTTLE_VFD_BASE_MASK)) ∧
    volField (set_vfd_icons_handler
      (set_vfd_icons_handler 0 ("vol5".data)).1 ("vol5".data)).1 = 0 ∧
    (set_vfd_icons_handler
      (set_vfd_icons_handler 0 ("vol5".data)).1 ("vol7".data)).1 = 7 <<< 15 := by
  refine ⟨?_, by rfl, by rfl⟩
  simp only [handler_fst, applyIconsMask]
  rw [if_neg (by simp [hclear]), if_neg (by simp [hset]),
      if_pos (vol01_le_of_volField_ne hvol)]
  refine ⟨?_, ?_, ?_⟩
  · intro heq
    rw [if_pos (volMask_eq_iff.mpr heq)]
    exact volField_of_lt
      (Nat.xor_lt_two_pow (and_base_lt cur) (and_base_lt (vfd_parse_all buf).1))
  · intro hne
    rw [if_neg (fun h => hne (volMask_eq_iff.mp h)), Nat.xor_comm,
        volField_xor_of_lt (and_base_lt cur)]
  · by_cases heq : cur &&& SHUTTLE_VFD_VOL_MASK =
        (vfd_parse_all buf).1 &&& SHUTTLE_VFD_VOL_MASK
    · rw [if_pos heq, Nat.and_xor_distrib_right, and_base_idem, and_base_idem]
    · rw [if_neg heq, Nat.and_xor_distrib_right, and_base_idem]

theorem icons_volume_merge_witness :
    volField (set_vfd_icons_handler 0 ("vol5".data)).1 =
      volField (vfd_parse_all ("vol5".data)).1 :=
  ((icons_volume_merge 0 ("vol5".data) (by decide) (by decide)
      (by decide)).1.2.1) (by decide)

/-- C5: a Clear sentinel among the resolved tokens forces the new mask to
0 regardless of everything else; otherwise a Set sentinel makes the new
mask the OR of the resolved values with the Set bit stripped, independent
of the prior mask. -/
theorem icons_sentinel_merge (cur : Nat) (buf : List Char) :
    ((vfd_parse_all buf).1 &&& DRIVER_ICON_CLEAR ≠ 0 →
       (set_vfd_icons_handler cur buf).1 = 0) ∧
    ((vfd_parse_all buf).1 &&& DRIVER_ICON_CLEAR = 0 →
     (vfd_parse_all buf).1 &&& DRIVER_ICON_SET ≠ 0 →
       (set_vfd_icons_handler cur buf).1 =
         (vfd_parse_all buf).1 &&& (ULONG_MAX ^^^ DRIVER_ICON_SET)) := by
  constructor
  · intro h
    rw [handler_fst]
    simp only [applyIconsMask]
    rw [if_pos h]
  · intro h1 h2
    rw [handler_fst]
    simp only [applyIconsMask]
    rw [if_neg (by simp [h1]), if_pos h2]

theorem icons_sentinel_merge_witness :
    (set_vfd_icons_handler 77 ("clear,play".data)).1 = 0 :=
  (icons_sentinel_merge 77 ("clear,play".data)).1 (by decide)

theorem parse_foldl_split (ts : List (List Char)) (m u : Nat) :
    ts.foldl
      (fun mu tok =>
        match vfd_parse_icons tok with
        | some v => (mu.1 ||| v, mu.2)
        | none => (mu.1, mu.2 + 1)) (m, u) =
    ((ts.filter (fun t => (vfd_parse_icons t).isSome)).foldl
       (fun acc t => acc ||| (vfd_parse_icons t).getD 0) m,
     u + (ts.filter (fun t => (vfd_parse_icons t).isNone)).length) := by
  induction ts generalizing m u with
  | nil => simp
  | cons t ts ih =>
    cases h : vfd_parse_icons t with
    | some v => simp [List.filter_cons, h, ih]
    | none =>
      simp only [List.foldl_cons, h, List.filter_cons]
      rw [ih]
      simp [h]
      omega

/-- C8: a token that fails catalog lookup never aborts the request: the
accumulated mask equals the OR-fold over exactly the tokens that do
resolve, the unknown count is the number of failing tokens, and the
concrete input "foo,play" still sets the play bit (1 <<< 6) while
reporting exactly one unknown token. -/
theorem icons_unknown_skipped (buf : List Char) :
    (vfd_parse_all buf).1 =
      ((tokenize buf).filter (fun t => (vfd_parse_icons t).isSome)).foldl
        (fun m t => m ||| (vfd_parse_icons t).getD 0) 0 ∧
    (vfd_parse_all buf).2 =
      ((tokenize buf).filter (fun t => (vfd_parse_icons t).isNone)).length ∧
    set_vfd_icons_handler 0 ("foo,play".data) = (1 <<< 6, 1) := by
  have hpa : vfd_parse_all buf =
      (tokenize buf).foldl
        (fun mu tok =>
          match vfd_parse_icons tok with
          | some v => (mu.1 ||| v, mu.2)
          | none => (mu.1, mu.2 + 1)) (0, 0) := rfl
  refine ⟨?_, ?_, by rfl⟩
  · rw [hpa, parse_foldl_split]
  · rw [hpa, parse_foldl_split]
    simp

/-! ## Claims about text writing -/

/-- C3 counterexample: a Left-style write of the single byte 0x41 leaves
byte 1 of the screen equal to 0, not the space character 0x20 the claim
requires. -/
theorem text_left_pad_cex :
    (set_vfd_text_handler TextStyle.left (List.replicate 20 0x58) [0x41]).getD
      1 0 ≠ 0x20 := by decide

/-- C3 (amended): a Left-style write shorter than 20 bytes stores the
input left-justified with every byte to its right equal to 0x00 (the
handler zero-fills the screen first and the left branch pads nothing). -/
theorem text_left_zero_pad (screen buf : List Nat) (h : buf.length < 20) :
    set_vfd_text_handler TextStyle.left screen buf =
      buf ++ List.replicate (20 - buf.length) 0 := by
  simp only [set_vfd_text_handler, writeBytes, SHUTTLE_VFD_WIDTH]
  rw [if_pos h, Nat.min_eq_left h.le, List.take_length]
  simp only [List.take_zero, List.nil_append, Nat.zero_add,
    List.drop_replicate]

theorem text_left_zero_pad_witness :
    set_vfd_text_handler TextStyle.left (List.replicate 20 0x58) [0x41] =
      [0x41] ++ List.replicate 19 0 :=
  text_left_zero_pad (List.replicate 20 0x58) [0x41] (by decide)

/-- C7: a Center-style write of 0-20 bytes space-pads both sides, the left
pad being (20 - len) / 2 bytes, so an odd total padding puts the extra
byte on the right; the screen is always exactly 20 bytes. -/
theorem text_center_pad (screen buf : List Nat) (hs : screen.length = 20)
    (hb : buf.length ≤ 20) :
    set_vfd_text_handler TextStyle.center screen buf =
      List.replicate ((20 - buf.length) / 2) 0x20 ++ buf ++
        List.replicate (20 - buf.length - (20 - buf.length) / 2) 0x20 ∧
    (set_vfd_text_handler TextStyle.center screen buf).length = 20 := by
  have key : set_vfd_text_handler TextStyle.center screen buf =
      List.replicate ((20 - buf.length) / 2) 0x20 ++ buf ++
        List.replicate (20 - buf.length - (20 - buf.length) / 2) 0x20 := by
    simp only [set_vfd_text_handler, writeBytes, SHUTTLE_VFD_WIDTH]
    rw [Nat.min_eq_left hb, List.take_length]
    simp only [List.take_zero, List.nil_append, List.length_replicate,
      Nat.zero_add]
    have hdrop : List.drop 20
        (if buf.length < 20 then List.replicate 20 (0 : Nat) else screen) =
          [] :=
      List.drop_eq_nil_of_le (by split_ifs <;> simp [hs])
    rw [hdrop, List.append_nil, List.take_replicate, List.drop_replicate,
        Nat.min_eq_left (by omega)]
    have harith : 20 - ((20 - buf.length) / 2 + buf.length) =
        20 - buf.length - (20 - buf.length) / 2 := by omega
    rw [harith]
  refine ⟨key, ?_⟩
  rw [key]
  simp only [List.length_append, List.length_replicate]
  omega

theorem text_center_pad_witness :
    set_vfd_text_handler TextStyle.center (List.replicate 20 0x58) [0x41] =
      List.replicate 9 0x20 ++ [0x41] ++ List.replicate 10 0x20 :=
  (text_center_pad (List.replicate 20 0x58) [0x41] (by decide) (by decide)).1

/-- C6: encoding the full 20-byte screen always gives exactly three
command-0x9 packets, the first two with length nibble 7 and the third with
length nibble 6, and every payload byte past the declared length is 0. -/
theorem text_packets_full (screen : List Nat) (h : screen.length = 20) :
    (vfd_set_text screen 20).length = 3 ∧
    (vfd_set_text screen 20).map (fun p => p.headD 0) = [0x97, 0x97, 0x96] ∧
    ∀ p ∈ vfd_set_text screen 20, p.length = 8 ∧
      ∀ j, (p.headD 0) % 16 < j → j < 8 → p.getD j 0 = 0 := by
  have hexp : vfd_set_text screen 20 =
      [0x97 :: screen.take 7,
       0x97 :: (screen.drop 7).take 7,
       0x96 :: ((screen.drop 14).take 6 ++ [0])] := by
    simp only [vfd_set_text, SHUTTLE_VFD_DATA_SIZE, SHUTTLE_VFD_PACKET_SIZE]
    norm_num [List.range_succ]
    exact ⟨by decide, by decide⟩
  have hlen : ∀ k, (screen.drop k).length = 20 - k := by
    intro k
    simp [h]
  have htake : ∀ k n, n + k ≤ 20 → ((screen.drop k).take n).length = n := by
    intro k n hn
    simp [hlen]
    omega
  rw [hexp]
  refine ⟨rfl, rfl, ?_⟩
  intro p hp
  rcases List.mem_cons.mp hp with hp | hp
  · subst hp
    refine ⟨by simp [List.length_take, h], ?_⟩
    intro j hj1 hj2
    norm_num at hj1
    omega
  rcases List.mem_cons.mp hp with hp | hp
  · subst hp
    refine ⟨by simp [List.length_take, hlen], ?_⟩
    intro j hj1 hj2
    norm_num at hj1
    omega
  rcases List.mem_cons.mp hp with hp | hp
  · subst hp
    have h6 : ((screen.drop 14).take 6).length = 6 := htake 14 6 (by omega)
    refine ⟨by simp [h6], ?_⟩
    intro j hj1 hj2
    norm_num at hj1
    have hj : j = 7 := by omega
    subst hj
    show ((screen.drop 14).take 6 ++ [0]).getD 6 0 = 0
    simp [List.getD_eq_getElem?_getD, List.getElem?_append_right, h6]
  · cases hp

theorem text_packets_full_witness :
    (vfd_set_text (List.replicate 20 0x41) 20).length = 3 :=
  (text_packets_full (List.replicate 20 0x41) (by decide)).1

/-! ## Claims about the clock path -/

/-- C1 counterexample: with the RTC source unavailable the emitted 0xD
packet does not have all seven payload fields zero: its month field
(payload byte 6) is 1, the BCD-like encoding of tm_mon + 1 = 1. -/
theorem clock_zeroed_cex :
    ((vfd_set_clock none).headD []).getD 6 0 ≠ 0 := by decide

/-- C1 (amended): with the RTC source unavailable the clock-set operation
still completes on the zeroed rtc_time struct: seconds, minutes, hours,
weekday and day-of-month payload bytes are 0, but the month byte is 1
(BCD of 0 + 1) and the year byte is 0x60 (BCD-like encoding of 0 - 100
truncated to an unsigned char); the 0x3 activation packet follows. -/
theorem clock_unavailable_packets :
    vfd_set_clock none =
      [[0xD7, 0, 0, 0, 0, 0, 1, 0x60], [0x31, 3, 0, 0, 0, 0, 0, 0]] := by rfl

/-! ## Claim about the get-text trim loop -/

theorem trimLoop_isSome (screen : List Nat) :
    ∀ n, (trimLoop screen n).isSome = true ↔
      ∃ i, i < n ∧ isTrimByte (screen.getD i 0) = false := by
  intro n
  induction n with
  | zero => simp [trimLoop]
  | succ n ih =>
    unfold trimLoop
    by_cases hb : isTrimByte (screen.getD n 0)
    · rw [if_pos hb, ih]
      constructor
      · rintro ⟨i, hi, hbad⟩
        exact ⟨i, by omega, hbad⟩
      · rintro ⟨i, hi, hbad⟩
        refine ⟨i, ?_, hbad⟩
        rcases Nat.lt_succ_iff_lt_or_eq.mp hi with hi' | hi'
        · exact hi'
        · subst hi'
          rw [hb] at hbad
          cases hbad
    · rw [if_neg hb]
      simp only [Option.isSome_some, true_iff]
      exact ⟨n, Nat.lt_succ_self n, by simpa using hb⟩

theorem trimLoop_bounds (screen : List Nat) :
    ∀ n sz, trimLoop screen n = some sz → 1 ≤ sz ∧ sz ≤ n := by
  intro n
  induction n with
  | zero => simp [trimLoop]
  | succ n ih =>
    intro sz hsz
    unfold trimLoop at hsz
    by_cases hb : isTrimByte (screen.getD n 0)
    · rw [if_pos hb] at hsz
      have := ih sz hsz
      omega
    · rw [if_neg hb] at hsz
      cases hsz
      omega

/-- C9: the trailing trim loop of get_vfd_text_handler stays inside the
20-byte buffer exactly when some screen byte is neither NUL nor newline
(then it exits at a size in [1,20]); the all-NUL-or-newline screen is
reachable (Left-style set_text of a single newline zero-fills the rest)
and on it the loop decrements past size 0, i.e. reads index -1, one byte
before the start of the output buffer (modelled by trimLoop = none). -/
theorem get_text_trim_underflow :
    (∀ screen : List Nat,
      ((trimLoop screen 20).isSome = true ↔
        ∃ i, i < 20 ∧ isTrimByte (screen.getD i 0) = false) ∧
      ∀ sz, trimLoop screen 20 = some sz → 1 ≤ sz ∧ sz ≤ 20) ∧
    (∀ i, i < 20 →
      isTrimByte ((set_vfd_text_handler TextStyle.left
        (List.replicate 20 0x58) [10]).getD i 0) = true) ∧
    trimLoop
      (set_vfd_text_handler TextStyle.left (List.replicate 20 0x58) [10])
      20 = none := by
  refine ⟨fun screen => ⟨trimLoop_isSome screen 20, trimLoop_bounds screen 20⟩,
    ?_, by rfl⟩
  decide

theorem get_text_trim_underflow_witness :
    (trimLoop (List.replicate 20 65) 20).isSome = true ∧ 1 ≤ 20 ∧ 20 ≤ 20 :=
  ⟨((get_text_trim_underflow.1 (List.replicate 20 65)).1).mpr
      ⟨19, by decide, by decide⟩,
   (get_text_trim_underflow.1 (List.replicate 20 65)).2 20 (by rfl)⟩

/-! ## Claim about the mode handler -/

/-- C10: a recognized mode token makes the handler send the full-erase
reset packet (payload byte 1) first, while the icons_mask field of the
state is unchanged, so a later get_vfd_icons_handler reports exactly the
icons reported before the mode switch. -/
theorem mode_preserves_icons (st : VfdState) (rtc : Option RtcTime)
    (cmd : String)
    (h : cmd = "clock" ∨ cmd = "clk" ∨ cmd = "text" ∨ cmd = "txt") :
    ∃ st2 pkts, set_vfd_mode_handler st cmd rtc = some (st2, pkts) ∧
      st2.icons_mask = st.icons_mask ∧
      pkts.headD [] = vfd_reset_cursor true ∧
      (vfd_reset_cursor true).getD 1 0 = 1 ∧
      get_vfd_icons_handler st2.icons_mask =
        get_vfd_icons_handler st.icons_mask := by
  rcases h with h | h | h | h <;> subst h <;>
    exact ⟨_, _, rfl, rfl, rfl, rfl, rfl⟩

theorem mode_preserves_icons_witness :
    ∃ st2 pkts,
      set_vfd_mode_handler
        (VfdState.mk 5 DRIVER_MODE_TEXT TextStyle.center
          (List.replicate 20 32)) "clock" none = some (st2, pkts) ∧
      st2.icons_mask =
        (VfdState.mk 5 DRIVER_MODE_TEXT TextStyle.center
          (List.replicate 20 32)).icons_mask ∧
      pkts.headD [] = vfd_reset_cursor true ∧
      (vfd_reset_cursor true).getD 1 0 = 1 ∧
      get_vfd_icons_handler st2.icons_mask =
        get_vfd_icons_handler
          (VfdState.mk 5 DRIVER_MODE_TEXT TextStyle.center
            (List.replicate 20 32)).icons_mask :=
  mode_preserves_icons
    (VfdState.mk 5 DRIVER_MODE_TEXT TextStyle.center (List.replicate 20 32))
    none "clock" (Or.inl rfl)

end ShuttleVFD
